import Mathlib

/-!
Shallow embedding of `src/app.py` (a FastAPI CRUD service for products and a
single global shopping cart backed by a relational store).

Modelling decisions:
* The persistent state (`Store`) is the pair of tables `products` and
  `cart_items`, each a list of rows in primary-key (= insertion) order,
  together with the autoincrement counters for the two primary keys.
* Python `int` is modelled by `Int`; the `Float` price column is modelled by
  `Rat` (exact arithmetic in place of IEEE floats).
* `query(...).filter(col == v).first()` is `List.find?` on the row list, which
  matches the primary-key-ordered result sets returned by the database.
* Every route handler becomes a function `args → Store → result × Store`; a
  raised `HTTPException` becomes `Except.error`.  Handlers raise before any
  write, so the error branches return the store unchanged, exactly as the code
  does.
* The schema declares `ForeignKey('products.id', ondelete='CASCADE')`
  (app.py line 24), so deleting a product also deletes the cart rows that
  reference it; `delete_product` and `remove_cart_item` model that cascade.
* `item.product` (the ORM relationship, app.py line 28) dereferences the
  foreign key; on a dangling reference it would be `None` and the handler
  would crash with a server error, so `get_cart_total_price` returns an
  `Option`, `none` standing for that unhandled failure.
-/

/-- Row of the `products` table (`ProductDB`, app.py lines 13-18). -/
structure ProductRow where
  id : Int
  name : String
  price : Rat
  description : Option String
deriving Repr, DecidableEq

/-- Row of the `cart_items` table (`CartItemDB`, app.py lines 21-28). -/
structure CartRow where
  id : Int
  product_id : Int
  quantity : Int
deriving Repr, DecidableEq

/-- The persistent state: both tables plus the autoincrement counters. -/
structure Store where
  products : List ProductRow
  cart : List CartRow
  nextProductId : Int
  nextCartId : Int
deriving Repr, DecidableEq

/-- The state after `Base.metadata.create_all`: empty tables, counters at 1. -/
def Store.init : Store := ⟨[], [], 1, 1⟩

/-- An `HTTPException(status_code, detail)`. -/
structure HTTPError where
  status : Nat
  detail : String
deriving Repr, DecidableEq

/-- Pydantic request schema `Product` (app.py lines 34-41).  The `id` field is
present in the schema but ignored by the create handler. -/
structure Product where
  id : Int
  name : String
  price : Rat
  description : Option String
deriving Repr, DecidableEq

/-- Pydantic schema `CartItem` (app.py lines 43-48). -/
structure CartItem where
  product_id : Int
  quantity : Int
deriving Repr, DecidableEq

/-- Pydantic schema `CartItemResponse` (app.py lines 50-55). -/
structure CartItemResponse where
  product_id : Int
  product_name : String
  quantity : Int
  price_per_unit : Rat
  price_as_per_count : Rat
deriving Repr, DecidableEq

/-- Pydantic schema `CartTotalResponse` (app.py lines 57-59). -/
structure CartTotalResponse where
  items : List CartItemResponse
  total_price : Rat
deriving Repr, DecidableEq

/-- Loop body of `create_products` (app.py lines 76-81): each input is
inserted as a fresh row (the database assigns the next id) and appended to
`created_products` (modelled by the accumulator, kept reversed). -/
def create_products_go (s : Store) (acc : List ProductRow) :
    List Product → List ProductRow × Store
  | [] => (acc.reverse, s)
  | product :: rest =>
      let db_product : ProductRow :=
        ⟨s.nextProductId, product.name, product.price, product.description⟩
      create_products_go
        { s with products := s.products ++ [db_product],
                 nextProductId := s.nextProductId + 1 }
        (db_product :: acc) rest

/-- `POST /products/` — `create_products` (app.py lines 72-83). -/
def create_products (products : List Product) (s : Store) :
    List ProductRow × Store :=
  create_products_go s [] products

/-- `GET /products/` — `get_products` (app.py lines 86-88). -/
def get_products (s : Store) : List ProductRow :=
  s.products

/-- `GET /products/{product_id}` — `get_product` (app.py lines 91-96). -/
def get_product (product_id : Int) (s : Store) :
    Except HTTPError ProductRow × Store :=
  match s.products.find? (fun p => p.id == product_id) with
  | none => (Except.error ⟨404, "Product not found"⟩, s)
  | some product => (Except.ok product, s)

/-- `DELETE /products/{product_id}` — `delete_product` (app.py lines 99-107).
The cart rows referencing the product are removed by the database-level
`ondelete='CASCADE'` rule on the foreign key (app.py line 24). -/
def delete_product (product_id : Int) (s : Store) :
    Except HTTPError String × Store :=
  match s.products.find? (fun p => p.id == product_id) with
  | none => (Except.error ⟨404, "Product not found"⟩, s)
  | some _ =>
      (Except.ok "Product deleted",
       { s with products := s.products.filter (fun p => p.id != product_id),
                cart := s.cart.filter (fun r => r.product_id != product_id) })

/-- In-place update of the first cart row matching `product_id`
(`cart_item.quantity += quantity`, app.py line 118: the ORM mutates the row
returned by `first()`). -/
def bumpFirst (product_id quantity : Int) : List CartRow → List CartRow
  | [] => []
  | r :: rs =>
      if r.product_id == product_id then
        { r with quantity := r.quantity + quantity } :: rs
      else
        r :: bumpFirst product_id quantity rs

/-- `POST /cart/` — `add_to_cart` (app.py lines 110-125). -/
def add_to_cart (product_id quantity : Int) (s : Store) :
    Except HTTPError CartItem × Store :=
  match s.products.find? (fun p => p.id == product_id) with
  | none => (Except.error ⟨404, "Product not found"⟩, s)
  | some _ =>
      match s.cart.find? (fun r => r.product_id == product_id) with
      | some cart_item =>
          (Except.ok ⟨product_id, cart_item.quantity + quantity⟩,
           { s with cart := bumpFirst product_id quantity s.cart })
      | none =>
          (Except.ok ⟨product_id, quantity⟩,
           { s with cart := s.cart ++ [⟨s.nextCartId, product_id, quantity⟩],
                    nextCartId := s.nextCartId + 1 })

/-- Loop of `get_cart_total_price` (app.py lines 134-147): walks the cart rows
accumulating `total_price` and `items_response` (kept reversed); dereferencing
`item.product` fails (`none`) on a dangling foreign key. -/
def cartTotalGo (products : List ProductRow) (total_price : Rat)
    (items_response : List CartItemResponse) :
    List CartRow → Option (List CartItemResponse × Rat)
  | [] => some (items_response.reverse, total_price)
  | item :: rest =>
      match products.find? (fun p => p.id == item.product_id) with
      | none => none
      | some product =>
          let item_total : Rat := (item.quantity : Rat) * product.price
          cartTotalGo products (total_price + item_total)
            (⟨product.id, product.name, item.quantity, product.price,
              item_total⟩ :: items_response) rest

/-- `GET /cart/total_price/` — `get_cart_total_price` (app.py lines 128-149). -/
def get_cart_total_price (s : Store) : Option CartTotalResponse :=
  (cartTotalGo s.products 0 [] s.cart).map (fun r => ⟨r.1, r.2⟩)

/-- `DELETE /cart/remove/{cart_item_id}` — `remove_cart_item`
(app.py lines 152-172): deletes the cart row, then deletes the referenced
product if it still exists (with the database cascade on its cart rows). -/
def remove_cart_item (cart_item_id : Int) (s : Store) :
    Except HTTPError CartItem × Store :=
  match s.cart.find? (fun r => r.id == cart_item_id) with
  | none => (Except.error ⟨404, "Cart item not found"⟩, s)
  | some cart_item =>
      let product_id := cart_item.product_id
      let s1 : Store :=
        { s with cart := s.cart.filter (fun r => r.id != cart_item_id) }
      match s1.products.find? (fun p => p.id == product_id) with
      | none => (Except.ok ⟨product_id, 0⟩, s1)
      | some _ =>
          (Except.ok ⟨product_id, 0⟩,
           { s1 with
              products := s1.products.filter (fun p => p.id != product_id),
              cart := s1.cart.filter (fun r => r.product_id != product_id) })

/-- The states reachable from the freshly created schema by sequences of the
route handlers.  `get_products` and `get_cart_total_price` are pure reads
(their Lean type shows they do not touch the store), so they need no step;
`get_product` returns the store unchanged and is included for completeness. -/
inductive Reachable : Store → Prop where
  | init : Reachable Store.init
  | create (ps : List Product) {s : Store} :
      Reachable s → Reachable (create_products ps s).2
  | getOne (pid : Int) {s : Store} :
      Reachable s → Reachable (get_product pid s).2
  | del (pid : Int) {s : Store} :
      Reachable s → Reachable (delete_product pid s).2
  | add (pid q : Int) {s : Store} :
      Reachable s → Reachable (add_to_cart pid q s).2
  | remove (cid : Int) {s : Store} :
      Reachable s → Reachable (remove_cart_item cid s).2

/-- Referential integrity of the `cart_items.product_id` foreign key, which
the relational engine enforces on every stored state: every cart row
references an existing product. -/
def Store.Integrity (s : Store) : Prop :=
  ∀ r ∈ s.cart, ∃ p ∈ s.products, p.id = r.product_id

/-- The per-row correspondence asserted by the cart-view contract: the
response item carries the row's product id, name, quantity, current unit
price, and a line total of quantity times that price. -/
def lineMatches (products : List ProductRow) (r : CartRow)
    (it : CartItemResponse) : Prop :=
  ∃ p, products.find? (fun x => x.id == r.product_id) = some p ∧
    it.product_id = p.id ∧ it.product_name = p.name ∧
    it.quantity = r.quantity ∧ it.price_per_unit = p.price ∧
    it.price_as_per_count = (r.quantity : Rat) * p.price

/-- A concrete sample state used by the witnesses: one product (id 1) and one
cart row (id 1) holding quantity 2 of it. -/
def storeW : Store := ⟨[⟨1, "Widget", 5, none⟩], [⟨1, 1, 2⟩], 2, 2⟩

/-! ### Helper lemmas -/

theorem not_exists_of_find?_none {α : Type} (f : α → Int) {l : List α}
    {v : Int} (hf : l.find? (fun x => f x == v) = none) :
    ¬ ∃ x ∈ l, f x = v := by
  rw [List.find?_eq_none] at hf
  rintro ⟨x, hmem, hv⟩
  exact hf x hmem (by simp [hv])

theorem exists_of_find?_some {α : Type} (f : α → Int) {l : List α} {v : Int}
    {a : α} (hf : l.find? (fun x => f x == v) = some a) :
    ∃ x ∈ l, f x = v :=
  ⟨a, List.mem_of_find?_eq_some hf, by simpa using List.find?_some hf⟩

theorem get_product_snd (pid : Int) (s : Store) : (get_product pid s).2 = s := by
  unfold get_product
  split <;> rfl

theorem create_products_go_cart (ps : List Product) :
    ∀ (s : Store) (acc : List ProductRow),
      ((create_products_go s acc ps).2).cart = s.cart := by
  induction ps with
  | nil => intro s acc; rfl
  | cons p rest ih => intro s acc; exact ih _ _

theorem find?_append_of_none {α : Type} (p : α → Bool) {l₁ : List α}
    (l₂ : List α) (h : l₁.find? p = none) :
    (l₁ ++ l₂).find? p = l₂.find? p := by
  rw [List.find?_append, h, Option.none_or]

theorem bumpFirst_countP (pid q pid' : Int) (l : List CartRow) :
    (bumpFirst pid q l).countP (fun r => r.product_id == pid') =
      l.countP (fun r => r.product_id == pid') := by
  induction l with
  | nil => rfl
  | cons r rs ih =>
      unfold bumpFirst
      by_cases h : r.product_id == pid'
      all_goals by_cases h2 : r.product_id == pid
      all_goals simp_all [List.countP_cons]

theorem bumpFirst_append_of_none (pid q : Int) {l₁ : List CartRow}
    (l₂ : List CartRow) (h : l₁.find? (fun r => r.product_id == pid) = none) :
    bumpFirst pid q (l₁ ++ l₂) = l₁ ++ bumpFirst pid q l₂ := by
  induction l₁ with
  | nil => rfl
  | cons r rs ih =>
      rw [List.find?_cons] at h
      cases hr : (r.product_id == pid) with
      | true => rw [hr] at h; exact absurd h (by simp)
      | false =>
          rw [hr] at h
          simp only [List.cons_append, bumpFirst, hr, Bool.false_eq_true,
            if_false]
          exact congrArg (List.cons r) (ih h)

/-! ### Claim theorems -/

/-- C9: when the cart holds no rows, `get_cart_total_price` succeeds and
returns an empty items list with total price 0. -/
theorem cart_total_empty (s : Store) (h : s.cart = []) :
    get_cart_total_price s = some ⟨[], 0⟩ := by
  unfold get_cart_total_price
  rw [h]
  rfl

/-- Witness for C9 at a concrete store with a product but an empty cart. -/
theorem cart_total_empty_witness :
    get_cart_total_price ⟨[⟨1, "Widget", 5, none⟩], [], 2, 1⟩ = some ⟨[], 0⟩ :=
  cart_total_empty ⟨[⟨1, "Widget", 5, none⟩], [], 2, 1⟩ rfl

/-- C10: every 404 branch leaves the store unchanged: `get_product`,
`delete_product`, `add_to_cart` and `remove_cart_item` perform no write when
they signal an error. -/
theorem notFound_preserves_state (s : Store) (pid q cid : Int) :
    (∀ e, (get_product pid s).1 = Except.error e → (get_product pid s).2 = s) ∧
    (∀ e, (delete_product pid s).1 = Except.error e →
      (delete_product pid s).2 = s) ∧
    (∀ e, (add_to_cart pid q s).1 = Except.error e →
      (add_to_cart pid q s).2 = s) ∧
    (∀ e, (remove_cart_item cid s).1 = Except.error e →
      (remove_cart_item cid s).2 = s) := by
  refine ⟨fun e h => get_product_snd pid s, ?_, ?_, ?_⟩
  · intro e h
    cases hf : s.products.find? (fun p => p.id == pid) with
    | none => simp [delete_product, hf]
    | some p => simp [delete_product, hf] at h
  · intro e h
    cases hf : s.products.find? (fun p => p.id == pid) with
    | none => simp [add_to_cart, hf]
    | some p =>
        cases hc : s.cart.find? (fun r => r.product_id == pid) with
        | some r => simp [add_to_cart, hf, hc] at h
        | none => simp [add_to_cart, hf, hc] at h
  · intro e h
    cases hf : s.cart.find? (fun r => r.id == cid) with
    | none => simp [remove_cart_item, hf]
    | some r =>
        cases hp : s.products.find? (fun p => p.id == r.product_id) with
        | none => simp [remove_cart_item, hf, hp] at h
        | some p => simp [remove_cart_item, hf, hp] at h

/-- Witness for C10: all four operations at absent ids on the initial store. -/
theorem notFound_preserves_state_witness :
    (get_product 7 Store.init).2 = Store.init ∧
    (delete_product 7 Store.init).2 = Store.init ∧
    (add_to_cart 7 2 Store.init).2 = Store.init ∧
    (remove_cart_item 7 Store.init).2 = Store.init :=
  ⟨(notFound_preserves_state Store.init 7 2 7).1 ⟨404, "Product not found"⟩ rfl,
   (notFound_preserves_state Store.init 7 2 7).2.1 ⟨404, "Product not found"⟩
     rfl,
   (notFound_preserves_state Store.init 7 2 7).2.2.1 ⟨404, "Product not found"⟩
     rfl,
   (notFound_preserves_state Store.init 7 2 7).2.2.2
     ⟨404, "Cart item not found"⟩ rfl⟩

/-- C4: `add_to_cart` signals 404 exactly when the product is absent; when it
exists, it returns the product id with the post-increment quantity (the
existing row's quantity plus the request, or the request itself if no row
existed). -/
theorem add_to_cart_contract (s : Store) (pid q : Int) :
    ((add_to_cart pid q s).1 = Except.error ⟨404, "Product not found"⟩ ↔
      ¬ ∃ p ∈ s.products, p.id = pid) ∧
    (add_to_cart pid q s).1 =
      (match s.products.find? (fun p => p.id == pid) with
       | none => Except.error ⟨404, "Product not found"⟩
       | some _ =>
           Except.ok ⟨pid,
             match s.cart.find? (fun r => r.product_id == pid) with
             | some cart_item => cart_item.quantity + q
             | none => q⟩) := by
  constructor
  · cases hf : s.products.find? (fun p => p.id == pid) with
    | none =>
        have hne := not_exists_of_find?_none ProductRow.id hf
        simp [add_to_cart, hf, hne]
    | some p =>
        have hex := exists_of_find?_some ProductRow.id hf
        cases hc : s.cart.find? (fun r => r.product_id == pid) with
        | some r => simp [add_to_cart, hf, hc, hex]
        | none => simp [add_to_cart, hf, hc, hex]
  · cases hf : s.products.find? (fun p => p.id == pid) with
    | none => simp [add_to_cart, hf]
    | some p =>
        cases hc : s.cart.find? (fun r => r.product_id == pid) with
        | some r => simp [add_to_cart, hf, hc]
        | none => simp [add_to_cart, hf, hc]

/-- Witness for C4: product 1 exists in `storeW` with a cart row of
quantity 2, so adding 3 answers quantity 5. -/
theorem add_to_cart_contract_witness :
    (add_to_cart 1 3 storeW).1 = Except.ok ⟨1, 5⟩ :=
  ((add_to_cart_contract storeW 1 3).2).trans rfl

/-- C6: `delete_product` signals 404 exactly when the product is absent, and
after a delete the product can no longer be fetched: `get_product` on the
same id signals 404 on the resulting store. -/
theorem delete_product_contract (s : Store) (pid : Int) :
    ((delete_product pid s).1 = Except.error ⟨404, "Product not found"⟩ ↔
      ¬ ∃ p ∈ s.products, p.id = pid) ∧
    (get_product pid (delete_product pid s).2).1 =
      Except.error ⟨404, "Product not found"⟩ := by
  constructor
  · cases hf : s.products.find? (fun p => p.id == pid) with
    | none =>
        have hne := not_exists_of_find?_none ProductRow.id hf
        simp [delete_product, hf, hne]
    | some p =>
        have hex := exists_of_find?_some ProductRow.id hf
        simp [delete_product, hf, hex]
  · cases hf : s.products.find? (fun p => p.id == pid) with
    | none => simp [delete_product, hf, get_product]
    | some p =>
        have hnone : (s.products.filter (fun x => x.id != pid)).find?
            (fun x => x.id == pid) = none := by
          rw [List.find?_eq_none]
          intro x hx
          have hne := (List.mem_filter.mp hx).2
          simp at hne ⊢
          exact hne
        simp [delete_product, hf, get_product, hnone]

/-- Witness for C6 at the sample store: after deleting product 1, fetching
product 1 signals 404. -/
theorem delete_product_contract_witness :
    (get_product 1 (delete_product 1 storeW).2).1 =
      Except.error ⟨404, "Product not found"⟩ :=
  (delete_product_contract storeW 1).2

/-- C8: `remove_cart_item` signals 404 exactly when no cart row bears the
given id; on success it returns the removed row's product id with
quantity 0. -/
theorem remove_cart_item_contract (s : Store) (cid : Int) :
    ((remove_cart_item cid s).1 = Except.error ⟨404, "Cart item not found"⟩ ↔
      ¬ ∃ r ∈ s.cart, r.id = cid) ∧
    (∀ r, s.cart.find? (fun x => x.id == cid) = some r →
      (remove_cart_item cid s).1 = Except.ok ⟨r.product_id, 0⟩) := by
  constructor
  · cases hf : s.cart.find? (fun r => r.id == cid) with
    | none =>
        have hne := not_exists_of_find?_none CartRow.id hf
        simp [remove_cart_item, hf, hne]
    | some r =>
        have hex := exists_of_find?_some CartRow.id hf
        cases hp : s.products.find? (fun p => p.id == r.product_id) with
        | none => simp [remove_cart_item, hf, hp, hex]
        | some p => simp [remove_cart_item, hf, hp, hex]
  · intro r hr
    cases hp : s.products.find? (fun p => p.id == r.product_id) with
    | none => simp [remove_cart_item, hr, hp]
    | some p => simp [remove_cart_item, hr, hp]

/-- Witness for C8: removing cart row 1 of the sample store answers its
product id 1 with quantity 0. -/
theorem remove_cart_item_contract_witness :
    (remove_cart_item 1 storeW).1 = Except.ok ⟨1, 0⟩ :=
  (remove_cart_item_contract storeW 1).2 ⟨1, 1, 2⟩ rfl

theorem find?_filter_ne {α : Type} (f : α → Int) (l : List α) (v : Int) :
    (l.filter (fun x => f x != v)).find? (fun x => f x == v) = none := by
  rw [List.find?_eq_none]
  intro x hx
  have h := (List.mem_filter.mp hx).2
  simp at h ⊢
  exact h

/-- C1: when the cart row exists, `remove_cart_item` succeeds, deletes the
cart row, deletes the product it references, and a subsequent `get_product`
on that product id signals 404. -/
theorem remove_cart_item_deletes_product (s : Store) (cid : Int) (r : CartRow)
    (h : s.cart.find? (fun x => x.id == cid) = some r) :
    (remove_cart_item cid s).1 = Except.ok ⟨r.product_id, 0⟩ ∧
    (remove_cart_item cid s).2.cart.all (fun x => x.id != cid) = true ∧
    (remove_cart_item cid s).2.products.all
      (fun p => p.id != r.product_id) = true ∧
    (get_product r.product_id (remove_cart_item cid s).2).1 =
      Except.error ⟨404, "Product not found"⟩ := by
  cases hp : s.products.find? (fun p => p.id == r.product_id) with
  | none =>
      have hall : ∀ p ∈ s.products, (p.id != r.product_id) = true := by
        intro p hmem
        have := List.find?_eq_none.mp hp p hmem
        simpa using this
      refine ⟨by simp [remove_cart_item, h, hp], ?_, ?_, ?_⟩
      · rw [List.all_eq_true]
        intro x hx
        have hcart : (remove_cart_item cid s).2.cart =
            s.cart.filter (fun x => x.id != cid) := by
          simp [remove_cart_item, h, hp]
        rw [hcart] at hx
        exact (List.mem_filter.mp hx).2
      · rw [List.all_eq_true]
        intro p hmem
        have hprod : (remove_cart_item cid s).2.products = s.products := by
          simp [remove_cart_item, h, hp]
        rw [hprod] at hmem
        exact hall p hmem
      · have hprod : (remove_cart_item cid s).2.products = s.products := by
          simp [remove_cart_item, h, hp]
        simp [get_product, hprod, hp]
  | some p =>
      have hcart : (remove_cart_item cid s).2.cart =
          (s.cart.filter (fun x => x.id != cid)).filter
            (fun x => x.product_id != r.product_id) := by
        simp [remove_cart_item, h, hp]
      have hprod : (remove_cart_item cid s).2.products =
          s.products.filter (fun x => x.id != r.product_id) := by
        simp [remove_cart_item, h, hp]
      refine ⟨by simp [remove_cart_item, h, hp], ?_, ?_, ?_⟩
      · rw [List.all_eq_true, hcart]
        intro x hx
        exact (List.mem_filter.mp (List.mem_of_mem_filter hx)).2
      · rw [List.all_eq_true, hprod]
        intro x hx
        exact (List.mem_filter.mp hx).2
      · simp [get_product, hprod, find?_filter_ne ProductRow.id]

/-- Witness for C1: removing cart row 1 of the sample store deletes the row
and product 1, which afterwards yields 404. -/
theorem remove_cart_item_deletes_product_witness :
    (remove_cart_item 1 storeW).1 = Except.ok ⟨1, 0⟩ ∧
    (remove_cart_item 1 storeW).2.cart.all (fun x => x.id != 1) = true ∧
    (remove_cart_item 1 storeW).2.products.all (fun p => p.id != 1) = true ∧
    (get_product 1 (remove_cart_item 1 storeW).2).1 =
      Except.error ⟨404, "Product not found"⟩ :=
  remove_cart_item_deletes_product storeW 1 ⟨1, 1, 2⟩ rfl

/-- C3: starting from a state whose cart has no row for an existing product,
adding quantity `q1` and then `q2` of it leaves exactly one cart row for that
product, holding quantity `q1 + q2`. -/
theorem add_to_cart_twice (s : Store) (pid q1 q2 : Int)
    (hp : (s.products.find? (fun p => p.id == pid)).isSome = true)
    (hc : s.cart.find? (fun r => r.product_id == pid) = none) :
    ((add_to_cart pid q2 (add_to_cart pid q1 s).2).2).cart.filter
        (fun r => r.product_id == pid) =
      [⟨s.nextCartId, pid, q1 + q2⟩] := by
  obtain ⟨p, hp⟩ := Option.isSome_iff_exists.mp hp
  have h1 : (add_to_cart pid q1 s).2 =
      { s with cart := s.cart ++ [⟨s.nextCartId, pid, q1⟩],
               nextCartId := s.nextCartId + 1 } := by
    simp [add_to_cart, hp, hc]
  rw [h1]
  have hrow : (s.cart ++ [(⟨s.nextCartId, pid, q1⟩ : CartRow)]).find?
      (fun r => r.product_id == pid) = some ⟨s.nextCartId, pid, q1⟩ := by
    rw [find?_append_of_none _ _ hc]
    simp [List.find?]
  have h2 : (add_to_cart pid q2
      { s with cart := s.cart ++ [⟨s.nextCartId, pid, q1⟩],
               nextCartId := s.nextCartId + 1 }).2.cart =
      bumpFirst pid q2 (s.cart ++ [⟨s.nextCartId, pid, q1⟩]) := by
    simp [add_to_cart, hp, hrow, -List.find?_append]
  rw [h2, bumpFirst_append_of_none pid q2 _ hc]
  have hfil : s.cart.filter (fun r => r.product_id == pid) = [] := by
    rw [List.filter_eq_nil_iff]
    intro r hr
    exact List.find?_eq_none.mp hc r hr
  simp [List.filter_append, hfil, bumpFirst]

/-- Witness for C3: adding 2 then 3 of product 1 to an empty cart leaves the
single row of quantity 5 the spec's example promises. -/
theorem add_to_cart_twice_witness :
    ((add_to_cart 1 3 (add_to_cart 1 2
        (⟨[⟨1, "Widget", 5, none⟩], [], 2, 1⟩ : Store)).2).2).cart.filter
      (fun r => r.product_id == 1) = [⟨1, 1, 5⟩] :=
  add_to_cart_twice ⟨[⟨1, "Widget", 5, none⟩], [], 2, 1⟩ 1 2 3 rfl rfl

/-- C5: creating a product through the bulk endpoint and fetching it by the
returned id yields a product with the same name, price and description
(the hypothesis is the autoincrement guarantee that the next primary key is
unused). -/
theorem create_then_get (s : Store) (prod : Product)
    (h : ∀ p ∈ s.products, p.id ≠ s.nextProductId) :
    ∃ row s2, create_products [prod] s = ([row], s2) ∧
      row.name = prod.name ∧ row.price = prod.price ∧
      row.description = prod.description ∧
      (get_product row.id s2).1 = Except.ok row := by
  refine ⟨⟨s.nextProductId, prod.name, prod.price, prod.description⟩,
    { s with
        products := s.products ++
          [⟨s.nextProductId, prod.name, prod.price, prod.description⟩],
        nextProductId := s.nextProductId + 1 },
    rfl, rfl, rfl, rfl, ?_⟩
  have hpre : s.products.find? (fun p => p.id == s.nextProductId) = none := by
    rw [List.find?_eq_none]
    intro p hmem
    simpa using h p hmem
  simp [get_product, find?_append_of_none _ _ hpre, List.find?]

/-- Witness for C5 on the initial store. -/
theorem create_then_get_witness :
    (∀ p ∈ Store.init.products, p.id ≠ Store.init.nextProductId) ∧
    ∃ row s2,
      create_products [⟨0, "Widget", 5, none⟩] Store.init = ([row], s2) ∧
      row.name = "Widget" ∧ row.price = 5 ∧ row.description = none ∧
      (get_product row.id s2).1 = Except.ok row :=
  ⟨by simp [Store.init],
   create_then_get Store.init ⟨0, "Widget", 5, none⟩ (by simp [Store.init])⟩

theorem cartTotalGo_spec (products : List ProductRow) (cart : List CartRow) :
    ∀ (acc : Rat) (out : List CartItemResponse),
      (∀ r ∈ cart,
        (products.find? (fun p => p.id == r.product_id)).isSome = true) →
      ∃ items total,
        cartTotalGo products acc out cart =
          some (out.reverse ++ items, acc + total) ∧
        List.Forall₂ (lineMatches products) cart items ∧
        total = (items.map (fun it => it.price_as_per_count)).sum := by
  induction cart with
  | nil =>
      intro acc out h
      exact ⟨[], 0, by simp [cartTotalGo], List.Forall₂.nil, by simp⟩
  | cons r rest ih =>
      intro acc out h
      obtain ⟨p, hp⟩ := Option.isSome_iff_exists.mp (h r (by simp))
      have hrest : ∀ x ∈ rest,
          (products.find? (fun q => q.id == x.product_id)).isSome = true :=
        fun x hx => h x (by simp [hx])
      obtain ⟨items, total, heq, hrel, hsum⟩ :=
        ih (acc + (r.quantity : Rat) * p.price)
          (⟨p.id, p.name, r.quantity, p.price,
            (r.quantity : Rat) * p.price⟩ :: out) hrest
      refine ⟨⟨p.id, p.name, r.quantity, p.price,
          (r.quantity : Rat) * p.price⟩ :: items,
        (r.quantity : Rat) * p.price + total, ?_, ?_, ?_⟩
      · simp only [cartTotalGo, hp]
        rw [heq]
        simp [List.append_assoc, add_assoc]
      · exact List.Forall₂.cons ⟨p, hp, rfl, rfl, rfl, rfl, rfl⟩ hrel
      · simp [hsum]

/-- C2: on a store satisfying the foreign-key integrity the database
enforces, `get_cart_total_price` succeeds, its items list corresponds row by
row to the cart (product id, name, quantity, current unit price, line total
of quantity times that price), and its grand total is the sum of the line
totals. -/
theorem get_cart_total_price_spec (s : Store)
    (h : ∀ r ∈ s.cart,
      (s.products.find? (fun p => p.id == r.product_id)).isSome = true) :
    ∃ res, get_cart_total_price s = some res ∧
      List.Forall₂ (lineMatches s.products) s.cart res.items ∧
      res.total_price =
        (res.items.map (fun it => it.price_as_per_count)).sum := by
  obtain ⟨items, total, heq, hrel, hsum⟩ := cartTotalGo_spec s.products s.cart 0 [] h
  refine ⟨⟨items, total⟩, ?_, hrel, hsum⟩
  unfold get_cart_total_price
  rw [heq]
  simp

/-- Witness for C2 at the sample store: one cart row of quantity 2 over
product 1 priced 5. -/
theorem get_cart_total_price_spec_witness :
    (∀ r ∈ storeW.cart,
      (storeW.products.find? (fun p => p.id == r.product_id)).isSome = true) ∧
    ∃ res, get_cart_total_price storeW = some res ∧
      List.Forall₂ (lineMatches storeW.products) storeW.cart res.items ∧
      res.total_price =
        (res.items.map (fun it => it.price_as_per_count)).sum :=
  ⟨by decide, get_cart_total_price_spec storeW (by decide)⟩

/-- C7: every state reachable from the fresh schema by the route handlers
has at most one cart row per product id — add-to-cart's
find-existing-row-else-insert logic preserves the invariant, and the other
operations only remove or rewrite rows in place. -/
theorem cart_unique_invariant (s : Store) (h : Reachable s) (pid : Int) :
    s.cart.countP (fun r => r.product_id == pid) ≤ 1 := by
  induction h with
  | init => simp [Store.init]
  | create ps hs ih =>
      rename_i s2
      rw [show (create_products ps s2).2.cart = s2.cart from
        create_products_go_cart ps s2 []]
      exact ih
  | getOne pid2 hs ih =>
      rw [get_product_snd]
      exact ih
  | del pid2 hs ih =>
      rename_i s2
      cases hf : s2.products.find? (fun p => p.id == pid2) with
      | none => simpa [delete_product, hf] using ih
      | some p =>
          have hcart : (delete_product pid2 s2).2.cart =
              s2.cart.filter (fun r => r.product_id != pid2) := by
            simp [delete_product, hf]
          rw [hcart]
          exact le_trans (List.Sublist.countP_le _ (List.filter_sublist _)) ih
  | add pid2 q hs ih =>
      rename_i s2
      cases hf : s2.products.find? (fun p => p.id == pid2) with
      | none => simpa [add_to_cart, hf] using ih
      | some p =>
          cases hc : s2.cart.find? (fun r => r.product_id == pid2) with
          | some r =>
              have hcart : (add_to_cart pid2 q s2).2.cart =
                  bumpFirst pid2 q s2.cart := by
                simp [add_to_cart, hf, hc]
              rw [hcart, bumpFirst_countP]
              exact ih
          | none =>
              have hcart : (add_to_cart pid2 q s2).2.cart =
                  s2.cart ++ [⟨s2.nextCartId, pid2, q⟩] := by
                simp [add_to_cart, hf, hc]
              rw [hcart, List.countP_append]
              by_cases hpp : pid2 = pid
              · subst hpp
                have h0 : s2.cart.countP (fun r => r.product_id == pid2) = 0 := by
                  rw [List.countP_eq_zero]
                  intro a ha
                  exact List.find?_eq_none.mp hc a ha
                rw [h0]
                simp [List.countP_cons]
              · have h1 : (([⟨s2.nextCartId, pid2, q⟩] : List CartRow).countP
                    (fun r => r.product_id == pid)) = 0 := by
                  simp [List.countP_cons, hpp]
                rw [h1]
                simpa using ih
  | remove cid hs ih =>
      rename_i s2
      cases hf : s2.cart.find? (fun r => r.id == cid) with
      | none => simpa [remove_cart_item, hf] using ih
      | some r =>
          cases hp : s2.products.find? (fun p => p.id == r.product_id) with
          | none =>
              have hcart : (remove_cart_item cid s2).2.cart =
                  s2.cart.filter (fun x => x.id != cid) := by
                simp [remove_cart_item, hf, hp]
              rw [hcart]
              exact le_trans (List.Sublist.countP_le _ (List.filter_sublist _))
                ih
          | some p =>
              have hcart : (remove_cart_item cid s2).2.cart =
                  (s2.cart.filter (fun x => x.id != cid)).filter
                    (fun x => x.product_id != r.product_id) := by
                simp [remove_cart_item, hf, hp]
              rw [hcart]
              exact le_trans
                (List.Sublist.countP_le _
                  ((List.filter_sublist _).trans (List.filter_sublist _))) ih

/-- Witness for C7 on a concrete reachable state: create a product, add it to
the cart twice; the row count for its product id stays at most one. -/
theorem cart_unique_invariant_witness :
    ((add_to_cart 1 3 (add_to_cart 1 2
        (create_products [⟨0, "Widget", 5, none⟩] Store.init).2).2).2).cart.countP
      (fun r => r.product_id == 1) ≤ 1 :=
  cart_unique_invariant _
    (Reachable.add 1 3 (Reachable.add 1 2
      (Reachable.create [⟨0, "Widget", 5, none⟩] Reachable.init))) 1
